import Mathlib

/-!
Shallow embedding of the kpi_insight_bot repository: database helpers
(db_shared.ts, db_kpi_tools / db_insight_tools), the three Mastra
workflows (kpi-creation-workflow, simple-kpi-workflow,
insight-generation-workflow) and the process entrypoints (init-db.ts,
mastra.ts), together with theorems settling the frozen claims.

JavaScript conventions modelled explicitly: optional fields are
`Option`, the `x || y` / truthiness idiom on strings treats the empty
string as falsy, and on numbers treats 0 as falsy.
-/

namespace KpiBot

/-- JS truthiness for an optional string: present and non-empty. -/
def truthyStr : Option String → Bool
  | none => false
  | some s => !s.isEmpty

/-- JS `a || b` for an optional string `a` with default `b`. -/
def jsOrStr (o : Option String) (dflt : String) : String :=
  match o with
  | none => dflt
  | some s => if s.isEmpty then dflt else s

/-- JS `x || null` on an optional string: empty string becomes null. -/
def orNullStr : Option String → Option String
  | none => none
  | some s => if s.isEmpty then none else some s

/-- JS `x || null` on an optional number: 0 becomes null. -/
def orNullNum : Option Int → Option Int
  | none => none
  | some n => if n = 0 then none else some n

/-- The string carried by a truthy optional string (JS reads the field). -/
def getStr (o : Option String) : String :=
  o.getD ""

/-! ## KPI table model (db_shared.ts `insertKPI`) -/

/-- A row of the `kpi` table: primary key `name`, payload columns and
the `created_at` timestamp assigned at insertion time. -/
structure KPIRow where
  name : String
  description : Option String
  formula : String
  table_name : Option String
  columns : Option (List String)
  created_at : Nat
  deriving Repr, DecidableEq

/-- The argument record of `insertKPI` in db_shared.ts. -/
structure KPIInput where
  name : String
  description : Option String
  formula : String
  table_name : Option String
  columns : Option (List String)
  deriving Repr, DecidableEq

/-- `INSERT INTO kpi ... ON CONFLICT (name) DO UPDATE SET description,
formula, table_name, columns` from db_shared.ts: if a row with the name
exists, its four payload columns are overwritten (name and created_at
untouched); otherwise a fresh row is appended with timestamp `now`.
The bound parameters apply the JS `|| null` coercions of the source. -/
def insertKPI (db : List KPIRow) (d : KPIInput) (now : Nat) : List KPIRow :=
  if db.any (fun r => decide (r.name = d.name)) then
    db.map (fun r =>
      if r.name = d.name then
        { r with description := orNullStr d.description,
                 formula := d.formula,
                 table_name := orNullStr d.table_name,
                 columns := d.columns }
      else r)
  else
    db ++ [{ name := d.name,
             description := orNullStr d.description,
             formula := d.formula,
             table_name := orNullStr d.table_name,
             columns := d.columns,
             created_at := now }]

/-- A sequence of `insertKPI` calls applied to the initially empty table. -/
def applyKPIOps (ops : List (KPIInput × Nat)) : List KPIRow :=
  ops.foldl (fun db p => insertKPI db p.1 p.2) []

/-- Uniqueness invariant: the names column of the kpi table has no duplicate. -/
def kpiNamesNodup (db : List KPIRow) : Prop :=
  (db.map (fun r => r.name)).Nodup

/-! ## Insight table model (db_shared.ts `insertInsight`) -/

/-- A row of the `insight` table (surrogate id and created_at omitted:
no claim refers to them). -/
structure InsightRow where
  name : String
  description : Option String
  kpi_name : Option String
  formula : String
  schedule : Option String
  exec_time : Option String
  alert_high : Option Int
  alert_low : Option Int
  deriving Repr, DecidableEq

/-- The argument record of `insertInsight` in db_shared.ts. -/
structure InsightInput where
  name : String
  description : Option String
  kpi_name : Option String
  formula : String
  schedule : Option String
  exec_time : Option String
  alert_high : Option Int
  alert_low : Option Int
  deriving Repr, DecidableEq

/-- `INSERT INTO insight (...) VALUES (...)` from db_shared.ts, with the
JS `|| null` coercion applied to every optional bound parameter. -/
def insertInsight (db : List InsightRow) (d : InsightInput) : List InsightRow :=
  db ++ [{ name := d.name,
           description := orNullStr d.description,
           kpi_name := orNullStr d.kpi_name,
           formula := d.formula,
           schedule := orNullStr d.schedule,
           exec_time := orNullStr d.exec_time,
           alert_high := orNullNum d.alert_high,
           alert_low := orNullNum d.alert_low }]

/-! ## Bounded query execution (db_shared.ts `runQuery`) -/

/-- The regex replace `/;$/ → empty` of the source, on the character
list: remove the final character when it is a semicolon. -/
def dropFinalSemi : List Char → List Char
  | [] => []
  | [c] => if c = ';' then [] else [c]
  | c :: c2 :: rest => c :: dropFinalSemi (c2 :: rest)

/-- The SQL string `runQuery` submits: backtick template
`sql.trim().replace(/;$/, '') + " LIMIT " + sample + ";"`. -/
def runQuerySql (sql : String) (sample : Nat := 5) : String :=
  String.mk (dropFinalSemi sql.trim.data) ++ " LIMIT " ++ toString sample ++ ";"

/-- Modelled from the spec words of the bounded-execution claim:
trim surrounding whitespace, remove a single trailing semicolon when
present (phrased via the reversed character list), append the limit
clause. Used only to compare against `runQuerySql`. -/
def specLimitedQuery (sql : String) (n : Nat) : String :=
  (if sql.trim.data.getLast? = some ';' then String.mk sql.trim.data.dropLast
   else sql.trim)
  ++ " LIMIT " ++ toString n ++ ";"

/-! ## Schema introspection (db_shared.ts `listColumns`) -/

/-- One row of `information_schema.columns` as queried by listColumns. -/
structure ColRow where
  table_schema : String
  table_name : String
  column_name : String
  data_type : String
  ordinal_position : Nat
  deriving Repr, DecidableEq

/-- JS `String.prototype.split` on the separator character `.`. -/
def splitOnDot : List Char → List (List Char)
  | [] => [[]]
  | c :: cs =>
    if c = '.' then [] :: splitOnDot cs
    else
      match splitOnDot cs with
      | [] => [[c]]
      | p :: ps => (c :: p) :: ps

/-- JS `table.includes(".")` as used by listColumns. -/
def hasDot (t : String) : Bool :=
  decide ('.' ∈ t.data)

/-- The schema/table resolution of listColumns: default schema
`public`; when the name contains a dot, schema and table are the first
two components of the split. -/
def parseTableName (t : String) : String × String :=
  if hasDot t then
    match splitOnDot t.data with
    | [] => ("public", t)
    | [p] => (String.mk p, t)
    | p :: q :: _ => (String.mk p, String.mk q)
  else ("public", t)

/-- The WHERE clause of the listColumns query. -/
def colMatches (p : String × String) (r : ColRow) : Bool :=
  decide (r.table_schema = p.1) && decide (r.table_name = p.2)

/-- ORDER BY ordinal_position. -/
def ordLe (a b : ColRow) : Prop :=
  a.ordinal_position ≤ b.ordinal_position

instance : DecidableRel ordLe := fun a b => Nat.decLe a.ordinal_position b.ordinal_position

instance : IsTotal ColRow ordLe := ⟨fun a b => Nat.le_total a.ordinal_position b.ordinal_position⟩

instance : IsTrans ColRow ordLe := ⟨fun _ _ _ hab hbc => Nat.le_trans hab hbc⟩

/-- `listColumns` over a modelled `information_schema.columns` relation
`db`: select column_name, data_type where schema and table match the
parsed name, ordered by ordinal position. -/
def listColumns (db : List ColRow) (t : String) : List (String × String) :=
  (List.insertionSort ordLe (db.filter (colMatches (parseTableName t)))).map
    (fun r => (r.column_name, r.data_type))

/-! ## Workflow step primitives -/

/-- Outcome of one execution of a step body: a suspend with its payload,
a successful output, or a thrown error aborting the run. -/
inductive StepOutcome (σ : Type) (ω : Type) where
  | suspended (payload : σ)
  | done (out : ω)
  | failed (msg : String)
  deriving Repr, DecidableEq

/-- Whether the outcome is a pause. -/
def StepOutcome.isSuspend : StepOutcome σ ω → Bool
  | .suspended _ => true
  | _ => false

/-- Whether the outcome is a thrown error. -/
def StepOutcome.isFail : StepOutcome σ ω → Bool
  | .failed _ => true
  | _ => false

/-- A database row returned to a preview step (record of column values,
values kept abstract as strings). -/
abbrev Row := List (String × String)

/-- Signature of generateSQLTool.execute: intent, tables, columns,
limit, to the generated SQL text (the LLM call is an external
collaborator; step theorems hold for every such function). -/
abbrev GenSqlFn := String → List String → List String → Nat → String

/-! ## kpi-creation-workflow (index based) -/

/-- Entry of the select-tables suspend payload: `{ index, name }`. -/
structure IndexedName where
  index : Nat
  name : String
  deriving Repr, DecidableEq

/-- Suspend payload of the select-tables step. -/
structure SelectTablesSuspend where
  availableTables : List IndexedName
  message : String
  deriving Repr, DecidableEq

/-- The suspend payload built by the select-tables step. -/
def selectTablesSuspendPayload (tables : List String) : SelectTablesSuspend :=
  { availableTables := tables.enum.map (fun p => { index := p.1, name := p.2 }),
    message := "Select tables by providing their index numbers. Example: \x7b\x22selectedTableIndexes\x22: [0]\x7d" }

/-- JS `[...].join(", ")` over numbers. -/
def joinComma : List Int → String
  | [] => ""
  | [i] => toString i
  | i :: j :: rest => toString i ++ ", " ++ joinComma (j :: rest)

/-- Whether index `i` is invalid for `tables` (`i < 0 || i >= length`). -/
def tableIdxInvalid (tables : List String) (i : Int) : Bool :=
  decide (i < 0) || decide ((tables.length : Int) ≤ i)

/-- The select-tables validation error message. -/
def tableErrMsg (tables : List String) (bad : List Int) : String :=
  "Invalid table indexes: " ++ joinComma bad ++ ". Must be between 0 and "
    ++ toString ((tables.length : Int) - 1)

/-- Body of the select-tables step of kpi-creation-workflow: suspend on
absent or empty index list, validate all indexes, then map indexes to
table names. -/
def selectTablesExec (tables : List String) (resume : Option (List Int)) :
    StepOutcome SelectTablesSuspend (List String) :=
  match resume with
  | none => .suspended (selectTablesSuspendPayload tables)
  | some idxs =>
    if idxs.isEmpty then .suspended (selectTablesSuspendPayload tables)
    else
      let invalid := idxs.filter (tableIdxInvalid tables)
      if invalid.isEmpty then
        .done (idxs.map (fun i => tables.getD i.toNat ""))
      else .failed (tableErrMsg tables invalid)

/-- A column as returned by listColumnsTool. -/
structure ColInfo where
  column_name : String
  data_type : String
  deriving Repr, DecidableEq

/-- Entry of the select-columns suspend payload: `{ index, column_name, data_type }`. -/
structure IndexedCol where
  index : Nat
  column_name : String
  data_type : String
  deriving Repr, DecidableEq

/-- Resume payload of the select-columns-details step. -/
structure SelColResume where
  selectedColumnsByTable : List (String × List Int)
  kpiName : String
  kpiDescription : String
  useAIGeneration : Bool
  sqlIntent : Option String
  manualSQL : Option String
  deriving Repr, DecidableEq

/-- Suspend payload of the select-columns-details step. -/
structure SelColSuspend where
  availableColumns : List (String × List IndexedCol)
  message : String
  deriving Repr, DecidableEq

/-- Output of the select-columns-details step. -/
structure SelColOutput where
  selectedColumns : List String
  selectedTables : List String
  kpiName : String
  kpiDescription : String
  useAIGeneration : Bool
  sqlIntent : Option String
  manualSQL : Option String
  deriving Repr, DecidableEq

/-- Record lookup `columns[table]` on the modelled record. -/
def lookupTable (columns : List (String × List ColInfo)) (t : String) :
    Option (List ColInfo) :=
  (columns.find? (fun p => decide (p.1 = t))).map (fun p => p.2)

/-- The suspend payload of the select-columns-details step: per selected
table, its columns with indexes attached. -/
def selColSuspendPayload (columns : List (String × List ColInfo))
    (selectedTables : List String) : SelColSuspend :=
  { availableColumns := selectedTables.map (fun t =>
      (t, ((lookupTable columns t).getD []).enum.map (fun p =>
        { index := p.1, column_name := p.2.column_name, data_type := p.2.data_type }))),
    message := "Provide: 1) selectedColumnsByTable (e.g., \x7b\x22public.bitwise_num\x22: [0, 1]\x7d), 2) kpiName, 3) kpiDescription, 4) useAIGeneration (true/false), 5) sqlIntent OR manualSQL" }

/-- Whether column index `i` is invalid for column list `cols`. -/
def colIdxInvalid (cols : List ColInfo) (i : Int) : Bool :=
  decide (i < 0) || decide ((cols.length : Int) ≤ i)

/-- The per-index validation error message of the select-columns step
(it names a single index). -/
def colErrMsg (t : String) (cols : List ColInfo) (i : Int) : String :=
  "Invalid column index " ++ toString i ++ " for table \x27" ++ t
    ++ "\x27. Must be between 0 and " ++ toString ((cols.length : Int) - 1)

/-- Inner loop of the select-columns step over one table: throws at the
first out-of-range index, otherwise accumulates `table.column` names. -/
def colNamesFor (cols : List ColInfo) (t : String) :
    List Int → Except String (List String)
  | [] => .ok []
  | i :: rest =>
    if colIdxInvalid cols i then .error (colErrMsg t cols i)
    else
      match colNamesFor cols t rest with
      | .error e => .error e
      | .ok ns => .ok ((t ++ "." ++ (cols.getD i.toNat { column_name := "", data_type := "" }).column_name) :: ns)

/-- Outer loop of the select-columns step over the user selection, in
JS object-entry order: unknown table throws, then per-table index
resolution. -/
def collectColumns (columns : List (String × List ColInfo)) :
    List (String × List Int) → Except String (List String)
  | [] => .ok []
  | (t, idxs) :: rest =>
    match lookupTable columns t with
    | none => .error ("Table \x27" ++ t ++ "\x27 not found in selected tables")
    | some cols =>
      match colNamesFor cols t idxs with
      | .error e => .error e
      | .ok ns =>
        match collectColumns columns rest with
        | .error e => .error e
        | .ok ms => .ok (ns ++ ms)

/-- Body of the select-columns-details step of kpi-creation-workflow:
suspend when resume data is absent or kpiName is falsy, otherwise
resolve every selected column index to `table.column`. -/
def selectColumnsAndDetailsExec (columns : List (String × List ColInfo))
    (selectedTables : List String) (resume : Option SelColResume) :
    StepOutcome SelColSuspend SelColOutput :=
  match resume with
  | none => .suspended (selColSuspendPayload columns selectedTables)
  | some r =>
    if r.kpiName.isEmpty then .suspended (selColSuspendPayload columns selectedTables)
    else
      match collectColumns columns r.selectedColumnsByTable with
      | .error e => .failed e
      | .ok selectedColumns =>
        .done { selectedColumns := selectedColumns,
                selectedTables := selectedTables,
                kpiName := r.kpiName,
                kpiDescription := r.kpiDescription,
                useAIGeneration := r.useAIGeneration,
                sqlIntent := r.sqlIntent,
                manualSQL := r.manualSQL }

/-- Output of the generate-sql step. -/
structure GenSQLOutput where
  sqlQuery : String
  kpiName : String
  kpiDescription : String
  selectedColumns : List String
  selectedTables : List String
  deriving Repr, DecidableEq

/-- Body of the generate-sql step of kpi-creation-workflow (no
suspend): AI branch when useAIGeneration and a truthy intent, else the
manual SQL when truthy, else a thrown error. -/
def generateSQLExec (useAIGeneration : Bool) (sqlIntent manualSQL : Option String)
    (selectedColumns selectedTables : List String) (kpiName kpiDescription : String)
    (genSql : GenSqlFn) : Except String GenSQLOutput :=
  if useAIGeneration && truthyStr sqlIntent then
    .ok { sqlQuery := genSql (getStr sqlIntent) selectedTables selectedColumns 10,
          kpiName := kpiName, kpiDescription := kpiDescription,
          selectedColumns := selectedColumns, selectedTables := selectedTables }
  else if truthyStr manualSQL then
    .ok { sqlQuery := getStr manualSQL,
          kpiName := kpiName, kpiDescription := kpiDescription,
          selectedColumns := selectedColumns, selectedTables := selectedTables }
  else .error "Either AI generation with intent or manual SQL must be provided"

/-- Input record of the confirm-save step. -/
structure ConfirmInput where
  sqlQuery : String
  kpiName : String
  kpiDescription : String
  previewResults : List Row
  selectedColumns : List String
  selectedTables : List String
  deriving Repr, DecidableEq

/-- Resume payload of both confirm-save steps: `{ confirmed, editedSQL? }`. -/
structure ConfirmResume where
  confirmed : Bool
  editedSQL : Option String
  deriving Repr, DecidableEq

/-- Suspend payload of the confirm-save step. -/
structure ConfirmSuspend where
  sqlQuery : String
  previewResults : List Row
  message : String
  deriving Repr, DecidableEq

/-- Output of the confirm-save step. -/
structure ConfirmOutput where
  kpiName : String
  success : Bool
  deriving Repr, DecidableEq

/-- The suspend payload of the confirm-save step. -/
def confirmSuspendPayload (input : ConfirmInput) : ConfirmSuspend :=
  { sqlQuery := input.sqlQuery,
    previewResults := input.previewResults,
    message := "Review the SQL query and results. Confirm to save or provide edited SQL." }

/-- Body of the confirm-save step of kpi-creation-workflow: suspend
while not confirmed, otherwise upsert the KPI (final SQL is
`editedSQL || sqlQuery`) and report success. -/
def confirmAndSaveExec (input : ConfirmInput) (resume : Option ConfirmResume)
    (db : List KPIRow) (now : Nat) :
    StepOutcome ConfirmSuspend (ConfirmOutput × List KPIRow) :=
  match resume with
  | none => .suspended (confirmSuspendPayload input)
  | some r =>
    if !r.confirmed then .suspended (confirmSuspendPayload input)
    else
      let finalSQL := jsOrStr r.editedSQL input.sqlQuery
      let db2 := insertKPI db
        { name := input.kpiName,
          description := some input.kpiDescription,
          formula := finalSQL,
          table_name := some (String.intercalate ", " input.selectedTables),
          columns := some input.selectedColumns } now
      .done ({ kpiName := input.kpiName, success := true }, db2)

/-! ## simple-kpi-workflow (name based) -/

/-- Resume payload of the select-table step. -/
structure SelectTableResume where
  tableName : String
  deriving Repr, DecidableEq

/-- Suspend payload of the select-table step. -/
structure SelectTableSuspend where
  tables : List String
  message : String
  deriving Repr, DecidableEq

/-- The suspend payload of the select-table step. -/
def selectTableSuspendPayload (tables : List String) : SelectTableSuspend :=
  { tables := tables,
    message := "Select a table by providing the full table name (e.g., public.bitwise_num)" }

/-- Body of the select-table step of simple-kpi-workflow: suspend while
tableName is absent or falsy, else pass it through. -/
def selectTableExec (tables : List String) (resume : Option SelectTableResume) :
    StepOutcome SelectTableSuspend String :=
  match resume with
  | none => .suspended (selectTableSuspendPayload tables)
  | some r =>
    if r.tableName.isEmpty then .suspended (selectTableSuspendPayload tables)
    else .done r.tableName

/-- Resume payload of the define-kpi step. -/
structure DefineKPIResume where
  kpiName : String
  kpiDescription : String
  useAI : Bool
  sqlIntent : Option String
  manualSQL : Option String
  deriving Repr, DecidableEq

/-- Suspend payload of the define-kpi step. -/
structure DefineKPISuspend where
  tableName : String
  columns : List ColInfo
  message : String
  deriving Repr, DecidableEq

/-- Output of the define-kpi step. -/
structure DefineKPIOutput where
  kpiName : String
  kpiDescription : String
  sqlQuery : String
  deriving Repr, DecidableEq

/-- The suspend payload of the define-kpi step. -/
def defineKPISuspendPayload (tableName : String) (columns : List ColInfo) :
    DefineKPISuspend :=
  { tableName := tableName, columns := columns,
    message := "Provide: kpiName, kpiDescription, useAI (true/false), and either sqlIntent OR manualSQL" }

/-- Body of the define-kpi step of simple-kpi-workflow: suspend when
kpiName is absent or falsy; AI branch requires useAI with a truthy
intent, manual branch requires NOT useAI with truthy manualSQL; else a
thrown error. -/
def defineKPIExec (tableName : String) (columns : List ColInfo)
    (resume : Option DefineKPIResume) (genSql : GenSqlFn) :
    StepOutcome DefineKPISuspend DefineKPIOutput :=
  match resume with
  | none => .suspended (defineKPISuspendPayload tableName columns)
  | some r =>
    if r.kpiName.isEmpty then .suspended (defineKPISuspendPayload tableName columns)
    else if r.useAI && truthyStr r.sqlIntent then
      .done { kpiName := r.kpiName, kpiDescription := r.kpiDescription,
              sqlQuery := genSql (getStr r.sqlIntent) [tableName]
                (columns.map (fun c => tableName ++ "." ++ c.column_name)) 100 }
    else if !r.useAI && truthyStr r.manualSQL then
      .done { kpiName := r.kpiName, kpiDescription := r.kpiDescription,
              sqlQuery := getStr r.manualSQL }
    else .failed "Provide either sqlIntent (with useAI=true) or manualSQL (with useAI=false)"

/-- Input record of the save-kpi step. -/
structure SaveKPIInput where
  kpiName : String
  kpiDescription : String
  sqlQuery : String
  preview : List Row
  deriving Repr, DecidableEq

/-- Suspend payload of the save-kpi step. -/
structure SaveKPISuspend where
  sqlQuery : String
  preview : List Row
  message : String
  deriving Repr, DecidableEq

/-- Output of the save-kpi step. -/
structure SaveKPIOutput where
  kpiName : String
  success : Bool
  message : String
  deriving Repr, DecidableEq

/-- The suspend payload of the save-kpi step. -/
def saveKPISuspendPayload (input : SaveKPIInput) : SaveKPISuspend :=
  { sqlQuery := input.sqlQuery, preview := input.preview,
    message := "Review the SQL and preview. Set confirmed=true to save, or provide editedSQL to modify" }

/-- Body of the save-kpi step of simple-kpi-workflow: suspend while not
confirmed, otherwise upsert the KPI (no table or columns supplied). -/
def saveKPIExec (input : SaveKPIInput) (resume : Option ConfirmResume)
    (db : List KPIRow) (now : Nat) :
    StepOutcome SaveKPISuspend (SaveKPIOutput × List KPIRow) :=
  match resume with
  | none => .suspended (saveKPISuspendPayload input)
  | some r =>
    if !r.confirmed then .suspended (saveKPISuspendPayload input)
    else
      let finalSQL := jsOrStr r.editedSQL input.sqlQuery
      let db2 := insertKPI db
        { name := input.kpiName,
          description := some input.kpiDescription,
          formula := finalSQL,
          table_name := none,
          columns := none } now
      .done ({ kpiName := input.kpiName, success := true,
               message := "KPI \x27" ++ input.kpiName ++ "\x27 saved successfully" }, db2)

/-! ## insight-generation-workflow -/

/-- A KPI as listed by fetchKPIsTool into the workflow: `{name, formula}`. -/
structure KPIEntry where
  name : String
  formula : String
  deriving Repr, DecidableEq

/-- Resume payload of the select-kpi step. -/
structure SelectKPIResume where
  kpiName : String
  insightName : String
  insightDescription : String
  deriving Repr, DecidableEq

/-- Suspend payload of the select-kpi step (list of `{name}` records). -/
structure SelectKPISuspend where
  availableKPIs : List String
  message : String
  deriving Repr, DecidableEq

/-- Output of the select-kpi step. -/
structure SelectKPIOutput where
  kpiName : String
  kpiFormula : String
  insightName : String
  insightDescription : String
  deriving Repr, DecidableEq

/-- The suspend payload of the select-kpi step. -/
def selectKPISuspendPayload (kpis : List KPIEntry) : SelectKPISuspend :=
  { availableKPIs := kpis.map (fun k => k.name),
    message := "Select a KPI and provide insight name and description" }

/-- Body of the select-kpi step of insight-generation-workflow: suspend
while kpiName or insightName is absent or falsy; unknown KPI name
throws; a match returns the formula with the insight fields. -/
def selectKPIExec (kpis : List KPIEntry) (resume : Option SelectKPIResume) :
    StepOutcome SelectKPISuspend SelectKPIOutput :=
  match resume with
  | none => .suspended (selectKPISuspendPayload kpis)
  | some r =>
    if r.kpiName.isEmpty || r.insightName.isEmpty then
      .suspended (selectKPISuspendPayload kpis)
    else
      match kpis.find? (fun k => decide (k.name = r.kpiName)) with
      | none => .failed ("KPI \x27" ++ r.kpiName ++ "\x27 not found")
      | some k =>
        .done { kpiName := r.kpiName, kpiFormula := k.formula,
                insightName := r.insightName,
                insightDescription := r.insightDescription }

/-- Input record of the confirm-save-insight step. -/
structure InsightConfirmInput where
  kpiName : String
  insightText : String
  insightName : String
  deriving Repr, DecidableEq

/-- Resume payload of the confirm-save-insight step. -/
structure InsightConfirmResume where
  confirmed : Bool
  editedInsight : Option String
  deriving Repr, DecidableEq

/-- Suspend payload of the confirm-save-insight step. -/
structure InsightConfirmSuspend where
  insightText : String
  message : String
  deriving Repr, DecidableEq

/-- Output of the confirm-save-insight step. -/
structure InsightOutput where
  insightName : String
  success : Bool
  deriving Repr, DecidableEq

/-- The suspend payload of the confirm-save-insight step. -/
def insightConfirmSuspendPayload (input : InsightConfirmInput) : InsightConfirmSuspend :=
  { insightText := input.insightText,
    message := "Review the generated insight. Confirm to save or provide edited version." }

/-- Body of the confirm-save-insight step of
insight-generation-workflow: suspend while not confirmed, otherwise
insert the insight (final text is `editedInsight || insightText`). -/
def confirmAndSaveInsightExec (input : InsightConfirmInput)
    (resume : Option InsightConfirmResume) (db : List InsightRow) :
    StepOutcome InsightConfirmSuspend (InsightOutput × List InsightRow) :=
  match resume with
  | none => .suspended (insightConfirmSuspendPayload input)
  | some r =>
    if !r.confirmed then .suspended (insightConfirmSuspendPayload input)
    else
      let finalInsight := jsOrStr r.editedInsight input.insightText
      let db2 := insertInsight db
        { name := input.insightName,
          description := none,
          kpi_name := some input.kpiName,
          formula := finalInsight,
          schedule := none,
          exec_time := none,
          alert_high := none,
          alert_low := none }
      .done ({ insightName := input.insightName, success := true }, db2)

/-! ## Process entrypoints (init-db.ts and mastra.ts) -/

/-- init-db.ts `initDatabase`: given the outcome of `ensureTables`,
the log lines printed and the process exit code. -/
def initDatabase (r : Except String Unit) : Nat × List String :=
  match r with
  | .ok _ =>
    (0, ["Initializing database tables...",
         "✓ Database tables created successfully!",
         "  - kpi table",
         "  - insight table"])
  | .error e =>
    (1, ["Initializing database tables...",
         "✗ Failed to initialize database: " ++ e])

/-- mastra.ts composition root: `ensureTables().catch(console.error)`.
Returns whether the process keeps running, and the log lines. -/
def compositionRootStartup (r : Except String Unit) : Bool × List String :=
  match r with
  | .ok _ => (true, [])
  | .error e => (true, ["Failed to initialize database tables: " ++ e])

/-! ## General helper lemmas -/

theorem data_append (s t : String) : (s ++ t).data = s.data ++ t.data :=
  rfl

theorem dropFinalSemi_eq (l : List Char) :
    dropFinalSemi l = if l.getLast? = some ';' then l.dropLast else l := by
  induction l with
  | nil => rfl
  | cons c cs ih =>
    cases cs with
    | nil =>
      by_cases hc : c = ';' <;> simp [dropFinalSemi, hc]
    | cons c2 rest =>
      by_cases h : (c2 :: rest).getLast? = some ';' <;>
        simp [dropFinalSemi, ih, h]

/-! ## Claim C4: bounded query execution builds exactly the limited SQL -/

/-- Claim C4: for every SQL text and row limit n (default 5), the string
submitted by runQuery is the trimmed text with a single trailing
semicolon removed when present, followed by the LIMIT clause,
unconditionally. -/
theorem runQuery_builds_limited_sql (sql : String) (n : Nat) :
    runQuerySql sql n = specLimitedQuery sql n ∧
    runQuerySql sql = specLimitedQuery sql 5 := by
  constructor <;>
  · unfold runQuerySql specLimitedQuery
    rw [dropFinalSemi_eq]
    by_cases h : sql.trim.data.getLast? = some ';' <;> simp [h]

/-! ## Claim C8: startup failure policy of the two entrypoints -/

/-- Claim C8: when ensureTables fails, the initialization entrypoint
logs the failure and exits with code 1 (code 0 on success), while the
composition root logs the same failure and keeps the process running. -/
theorem startup_failure_policy (e : String) :
    (initDatabase (.error e)).1 = 1 ∧
    ("✗ Failed to initialize database: " ++ e) ∈ (initDatabase (.error e)).2 ∧
    (initDatabase (.ok ())).1 = 0 ∧
    (compositionRootStartup (.error e)).1 = true ∧
    ("Failed to initialize database tables: " ++ e) ∈ (compositionRootStartup (.error e)).2 ∧
    (compositionRootStartup (.ok ())).1 = true := by
  refine ⟨rfl, ?_, rfl, rfl, ?_, rfl⟩ <;> simp [initDatabase, compositionRootStartup]

/-! ## Claim C9: insight insertion coerces falsy optional fields to NULL -/

/-- Claim C9: inserting an insight appends exactly one row, and every
falsy optional input field (0 for the numeric alert bounds, the empty
string for the text fields) is stored as NULL. -/
theorem insertInsight_falsy_to_null (db : List InsightRow) (d : InsightInput) :
    ∃ row, insertInsight db d = db ++ [row] ∧
      (d.alert_high = some 0 → row.alert_high = none) ∧
      (d.alert_low = some 0 → row.alert_low = none) ∧
      (d.description = some "" → row.description = none) ∧
      (d.kpi_name = some "" → row.kpi_name = none) ∧
      (d.schedule = some "" → row.schedule = none) ∧
      (d.exec_time = some "" → row.exec_time = none) := by
  refine ⟨_, rfl, ?_, ?_, ?_, ?_, ?_, ?_⟩ <;>
    intro h <;> simp [orNullStr, orNullNum, h, String.isEmpty_iff]

/-- An all-falsy insight input used as the witness instance. -/
def exInsightInput : InsightInput :=
  { name := "i1", description := some "", kpi_name := some "",
    formula := "text", schedule := some "", exec_time := some "",
    alert_high := some 0, alert_low := some 0 }

theorem insertInsight_falsy_to_null_witness :
    ∃ row, insertInsight [] exInsightInput = [] ++ [row] ∧
      row.alert_high = none ∧ row.description = none ∧ row.kpi_name = none := by
  obtain ⟨row, h1, h2, _, h4, h5, _, _⟩ := insertInsight_falsy_to_null [] exInsightInput
  exact ⟨row, h1, h2 rfl, h4 rfl, h5 rfl⟩

/-! ## Claim C3 and C10: KPI upsert invariants -/

theorem insertKPI_names (db : List KPIRow) (d : KPIInput) (now : Nat) :
    (insertKPI db d now).map (fun r => r.name) =
      if db.any (fun r => decide (r.name = d.name)) then db.map (fun r => r.name)
      else db.map (fun r => r.name) ++ [d.name] := by
  unfold insertKPI
  by_cases h : db.any (fun r => decide (r.name = d.name)) <;> simp [h]
  intro r _
  by_cases hr : r.name = d.name <;> simp [hr]

theorem insertKPI_nodup (db : List KPIRow) (d : KPIInput) (now : Nat)
    (h : kpiNamesNodup db) : kpiNamesNodup (insertKPI db d now) := by
  unfold kpiNamesNodup at h ⊢
  rw [insertKPI_names]
  by_cases hany : db.any (fun r => decide (r.name = d.name)) <;> simp [hany]
  · exact h
  · rw [List.nodup_append]
    refine ⟨h, List.nodup_singleton _, ?_⟩
    intro a ha hb
    simp only [List.mem_singleton] at hb
    subst hb
    simp only [List.mem_map] at ha
    obtain ⟨r, hr, hrn⟩ := ha
    have hall : ∀ x ∈ db, ¬ x.name = d.name := by simpa using hany
    exact hall r hr hrn

theorem nodup_filter_name_le_one (db : List KPIRow) (n : String)
    (h : kpiNamesNodup db) :
    (db.filter (fun r => decide (r.name = n))).length ≤ 1 := by
  induction db with
  | nil => simp
  | cons r rest ih =>
    unfold kpiNamesNodup at h
    simp only [List.map_cons, List.nodup_cons] at h
    obtain ⟨hnotin, hrest⟩ := h
    by_cases hr : r.name = n
    · have hempty : rest.filter (fun x => decide (x.name = n)) = [] := by
        rw [List.filter_eq_nil_iff]
        intro x hx
        simp only [decide_eq_true_eq]
        intro hxn
        exact hnotin (by rw [hr, ← hxn]; exact List.mem_map_of_mem _ hx)
      simp [List.filter_cons, hr, hempty]
    · simp only [List.filter_cons, decide_eq_true_eq, hr, if_false]
      exact ih hrest

theorem applyKPIOps_nodup_from (ops : List (KPIInput × Nat)) :
    ∀ db, kpiNamesNodup db →
      kpiNamesNodup (ops.foldl (fun db p => insertKPI db p.1 p.2) db) := by
  induction ops with
  | nil => intro db h; simpa using h
  | cons op rest ih =>
    intro db h
    exact ih _ (insertKPI_nodup _ _ _ h)

/-- Claim C3: after any sequence of KPI upserts the kpi table has at
most one row per name; the insert preserves name-uniqueness, and
upserting an existing name keeps the row count and overwrites the four
payload columns of the conflicting row. -/
theorem kpi_upsert_unique (ops : List (KPIInput × Nat)) (n : String)
    (db : List KPIRow) (d : KPIInput) (now : Nat)
    (hdb : kpiNamesNodup db) :
    ((applyKPIOps ops).filter (fun r => decide (r.name = n))).length ≤ 1 ∧
    kpiNamesNodup (insertKPI db d now) ∧
    ((∃ r ∈ db, r.name = d.name) →
      (insertKPI db d now).length = db.length ∧
      ∃ r ∈ insertKPI db d now, r.name = d.name ∧
        r.description = orNullStr d.description ∧
        r.formula = d.formula ∧
        r.table_name = orNullStr d.table_name ∧
        r.columns = d.columns) := by
  refine ⟨nodup_filter_name_le_one _ _
      (applyKPIOps_nodup_from ops [] (by simp [kpiNamesNodup])),
    insertKPI_nodup _ _ _ hdb, ?_⟩
  rintro ⟨r, hr, hname⟩
  have hany : db.any (fun r => decide (r.name = d.name)) = true := by
    simp only [List.any_eq_true, decide_eq_true_eq]
    exact ⟨r, hr, hname⟩
  constructor
  · simp [insertKPI, hany]
  · refine ⟨{ r with
        description := orNullStr d.description,
        formula := d.formula,
        table_name := orNullStr d.table_name,
        columns := d.columns }, ?_, hname, rfl, rfl, rfl, rfl⟩
    simp only [insertKPI, hany, if_true]
    have := List.mem_map_of_mem
      (fun r : KPIRow =>
        if r.name = d.name then
          { r with description := orNullStr d.description,
                   formula := d.formula,
                   table_name := orNullStr d.table_name,
                   columns := d.columns }
        else r) hr
    simpa [hname] using this

/-- Witness KPI inputs: a first insert and a colliding overwrite. -/
def exKPIInput : KPIInput :=
  { name := "k", description := some "d", formula := "SELECT 1",
    table_name := none, columns := none }

/-- The overwriting input of the witness, same primary-key name. -/
def exKPIInput2 : KPIInput :=
  { name := "k", description := some "d2", formula := "SELECT 2",
    table_name := some "t", columns := some ["a"] }

/-- A pre-existing kpi row used by the witnesses. -/
def exKPIRow : KPIRow :=
  { name := "k", description := some "d", formula := "SELECT 1",
    table_name := none, columns := none, created_at := 7 }

theorem kpi_upsert_unique_witness :
    ((applyKPIOps [(exKPIInput, 0), (exKPIInput2, 1)]).filter
      (fun r => decide (r.name = "k"))).length ≤ 1 ∧
    (insertKPI [exKPIRow] exKPIInput2 5).length = 1 ∧
    ∃ r ∈ insertKPI [exKPIRow] exKPIInput2 5,
      r.name = "k" ∧ r.formula = "SELECT 2" := by
  obtain ⟨h1, _, h3⟩ := kpi_upsert_unique [(exKPIInput, 0), (exKPIInput2, 1)] "k"
    [exKPIRow] exKPIInput2 5 (by simp [kpiNamesNodup, exKPIRow])
  obtain ⟨hlen, r, hmem, hn, _, hf, _, _⟩ := h3 ⟨exKPIRow, by simp, rfl⟩
  exact ⟨h1, hlen, r, hmem, hn, hf⟩

/-- Claim C10: upserting an existing name leaves every row's name and
created_at unchanged (in particular the conflicting row keeps its
creation timestamp) and leaves rows with other names entirely
untouched. -/
theorem kpi_upsert_conflict_frame (db : List KPIRow) (d : KPIInput) (now : Nat)
    (h : ∃ r ∈ db, r.name = d.name) :
    ((insertKPI db d now).map (fun r => (r.name, r.created_at)) =
      db.map (fun r => (r.name, r.created_at))) ∧
    (insertKPI db d now).length = db.length ∧
    ∀ r ∈ db, r.name ≠ d.name → r ∈ insertKPI db d now := by
  obtain ⟨r0, hr0, hn0⟩ := h
  have hany : db.any (fun r => decide (r.name = d.name)) = true := by
    simp only [List.any_eq_true, decide_eq_true_eq]
    exact ⟨r0, hr0, hn0⟩
  refine ⟨?_, by simp [insertKPI, hany], ?_⟩
  · simp only [insertKPI, hany, if_true, List.map_map]
    apply List.map_congr_left
    intro r _
    by_cases hr : r.name = d.name <;> simp [hr]
  · intro r hr hne
    simp only [insertKPI, hany, if_true]
    have := List.mem_map_of_mem
      (fun r : KPIRow =>
        if r.name = d.name then
          { r with description := orNullStr d.description,
                   formula := d.formula,
                   table_name := orNullStr d.table_name,
                   columns := d.columns }
        else r) hr
    simpa [hne] using this

theorem kpi_upsert_conflict_frame_witness :
    ((insertKPI [exKPIRow] exKPIInput2 5).map (fun r => (r.name, r.created_at)) =
      [("k", 7)]) ∧
    (insertKPI [exKPIRow] exKPIInput2 5).length = 1 := by
  obtain ⟨h1, h2, _⟩ :=
    kpi_upsert_conflict_frame [exKPIRow] exKPIInput2 5 ⟨exKPIRow, by simp, rfl⟩
  refine ⟨?_, h2⟩
  rw [h1]
  rfl

/-! ## Claim C5: listColumns name resolution, ordering, unknown table -/

theorem splitOnDot_no_dot (l : List Char) (h : '.' ∉ l) : splitOnDot l = [l] := by
  induction l with
  | nil => rfl
  | cons c cs ih =>
    have hc : ¬ c = '.' := fun hc => h (hc ▸ List.mem_cons_self c cs)
    have hcs : '.' ∉ cs := fun m => h (List.mem_cons_of_mem _ m)
    simp [splitOnDot, hc, ih hcs]

theorem splitOnDot_append (s u : List Char) (h : '.' ∉ s) :
    splitOnDot (s ++ '.' :: u) = s :: splitOnDot u := by
  induction s with
  | nil => simp [splitOnDot]
  | cons c cs ih =>
    have hc : ¬ c = '.' := fun hc => h (hc ▸ List.mem_cons_self c cs)
    have hcs : '.' ∉ cs := fun m => h (List.mem_cons_of_mem _ m)
    simp [splitOnDot, hc, ih hcs]

theorem parseTableName_no_dot (t : String) (h : hasDot t = false) :
    parseTableName t = ("public", t) := by
  simp [parseTableName, h]

theorem parseTableName_qualified (s u : String)
    (hs : hasDot s = false) (hu : hasDot u = false) :
    parseTableName (s ++ "." ++ u) = (s, u) := by
  have hsd : '.' ∉ s.data := by simpa [hasDot] using hs
  have hud : '.' ∉ u.data := by simpa [hasDot] using hu
  have hd : (s ++ "." ++ u).data = s.data ++ '.' :: u.data := by
    simp [data_append]
  have hhas : hasDot (s ++ "." ++ u) = true := by
    simp [hasDot, hd]
  unfold parseTableName
  rw [if_pos (by simpa using hhas), hd, splitOnDot_append _ _ hsd,
    splitOnDot_no_dot _ hud]

/-- Claim C5: listColumns defaults an unqualified name to the public
schema, splits a qualified name at the dot into schema and table,
returns the empty list when no information_schema row matches, and
returns the name/type pairs of the matching rows in a sequence that is
a permutation of the matching rows sorted by ordinal position. -/
theorem listColumns_resolution (db : List ColRow) (t : String) :
    (hasDot t = false → parseTableName t = ("public", t)) ∧
    (∀ s u : String, hasDot s = false → hasDot u = false →
      parseTableName (s ++ "." ++ u) = (s, u)) ∧
    ((∀ r ∈ db, colMatches (parseTableName t) r = false) → listColumns db t = []) ∧
    ∃ rows, rows.Perm (db.filter (colMatches (parseTableName t))) ∧
      List.Sorted ordLe rows ∧
      listColumns db t = rows.map (fun r => (r.column_name, r.data_type)) := by
  refine ⟨parseTableName_no_dot t,
    fun s u hs hu => parseTableName_qualified s u hs hu, ?_, ?_⟩
  · intro h
    have hfil : db.filter (colMatches (parseTableName t)) = [] := by
      rw [List.filter_eq_nil_iff]
      intro a ha
      simp [h a ha]
    simp [listColumns, hfil, List.insertionSort]
  · exact ⟨List.insertionSort ordLe (db.filter (colMatches (parseTableName t))),
      List.perm_insertionSort _ _, List.sorted_insertionSort _ _, rfl⟩

/-- Two information_schema rows used by the C5 witness. -/
def exColRow : ColRow :=
  { table_schema := "public", table_name := "sales", column_name := "amount",
    data_type := "numeric", ordinal_position := 2 }

/-- Second witness row, earlier ordinal position. -/
def exColRow2 : ColRow :=
  { table_schema := "public", table_name := "sales", column_name := "id",
    data_type := "integer", ordinal_position := 1 }

theorem listColumns_resolution_witness :
    parseTableName "sales" = ("public", "sales") ∧
    parseTableName ("public" ++ "." ++ "sales") = ("public", "sales") ∧
    listColumns [exColRow, exColRow2] "nosuch" = [] := by
  obtain ⟨h1, h2, _, _⟩ := listColumns_resolution [exColRow, exColRow2] "sales"
  obtain ⟨_, _, h3, _⟩ := listColumns_resolution [exColRow, exColRow2] "nosuch"
  exact ⟨h1 (by decide), h2 "public" "sales" (by decide) (by decide),
    h3 (by decide)⟩

/-! ## Claim C1: index-validation error messages -/

theorem toString_infix_joinComma (l : List Int) (x : Int) (hx : x ∈ l) :
    (toString x).data <:+: (joinComma l).data := by
  induction l with
  | nil => cases hx
  | cons i rest ih =>
    cases rest with
    | nil =>
      have hxi : x = i := by simpa using hx
      subst hxi
      exact List.infix_refl _
    | cons j rest2 =>
      rcases List.mem_cons.mp hx with h | h
      · subst h
        simp only [joinComma, data_append, List.append_assoc]
        exact (List.prefix_append _ _).isInfix
      · have ih2 := ih h
        simp only [joinComma, data_append, List.append_assoc]
        exact (ih2.trans (List.suffix_append _ _).isInfix).trans
          (List.suffix_append _ _).isInfix

theorem infix_tableErrMsg (tables : List String) (bad : List Int) (x : Int)
    (hx : x ∈ bad) :
    (toString x).data <:+: (tableErrMsg tables bad).data := by
  have h1 := toString_infix_joinComma bad x hx
  unfold tableErrMsg
  simp only [data_append, List.append_assoc]
  exact h1.trans (((List.prefix_append _ _).isInfix).trans
    (List.suffix_append _ _).isInfix)

theorem colNamesFor_ok (cols : List ColInfo) (t : String) (cidxs : List Int)
    (h : cidxs.filter (colIdxInvalid cols) = []) :
    ∃ ns, colNamesFor cols t cidxs = .ok ns := by
  induction cidxs with
  | nil => exact ⟨[], rfl⟩
  | cons i rest ih =>
    rw [List.filter_cons] at h
    by_cases hc : colIdxInvalid cols i = true
    · simp [hc] at h
    · rw [if_neg hc] at h
      obtain ⟨ns, hns⟩ := ih h
      exact ⟨(t ++ "." ++ (cols.getD i.toNat
          { column_name := "", data_type := "" }).column_name) :: ns,
        by simp [colNamesFor, hc, hns]⟩

theorem colNamesFor_first_err (cols : List ColInfo) (t : String) (cidxs : List Int)
    (i : Int) (h : (cidxs.filter (colIdxInvalid cols)).head? = some i) :
    colNamesFor cols t cidxs = .error (colErrMsg t cols i) := by
  induction cidxs with
  | nil => simp at h
  | cons c rest ih =>
    rw [List.filter_cons] at h
    by_cases hc : colIdxInvalid cols c = true
    · simp only [hc, if_true, List.head?_cons, Option.some.injEq] at h
      subst h
      simp [colNamesFor, hc]
    · simp only [hc, if_false] at h
      have hrec := ih h
      simp [colNamesFor, hc, hrec]

/-- Claim C1 amended: the table-selection step raises an error exactly
when some selected index is out of range, and its message names every
invalid index; the column-selection step raises an error naming only
the FIRST invalid index of a selection list, not all of them. -/
theorem index_validation_error_naming (tables : List String) (idxs : List Int)
    (t : String) (cols : List ColInfo) (cidxs : List Int)
    (hne : idxs ≠ []) :
    (idxs.filter (tableIdxInvalid tables) = [] →
      ∃ out, selectTablesExec tables (some idxs) = .done out) ∧
    (idxs.filter (tableIdxInvalid tables) ≠ [] →
      selectTablesExec tables (some idxs) =
        .failed (tableErrMsg tables (idxs.filter (tableIdxInvalid tables))) ∧
      ∀ i ∈ idxs, tableIdxInvalid tables i = true →
        (toString i).data <:+:
          (tableErrMsg tables (idxs.filter (tableIdxInvalid tables))).data) ∧
    (∀ i, (cidxs.filter (colIdxInvalid cols)).head? = some i →
      colNamesFor cols t cidxs = .error (colErrMsg t cols i)) ∧
    (cidxs.filter (colIdxInvalid cols) = [] →
      ∃ ns, colNamesFor cols t cidxs = .ok ns) := by
  have hemp : idxs.isEmpty = false := by
    rw [List.isEmpty_eq_false]
    exact hne
  refine ⟨?_, ?_, fun i h => colNamesFor_first_err cols t cidxs i h,
    colNamesFor_ok cols t cidxs⟩
  · intro hinv
    exact ⟨idxs.map (fun i => tables.getD i.toNat ""),
      by simp [selectTablesExec, hemp, hinv]⟩
  · intro hinv
    have hfe : (idxs.filter (tableIdxInvalid tables)).isEmpty = false := by
      rw [List.isEmpty_eq_false]
      exact hinv
    refine ⟨by simp [selectTablesExec, hemp, hfe], ?_⟩
    intro i hi hbad
    exact infix_tableErrMsg tables _ i (List.mem_filter.mpr ⟨hi, hbad⟩)

theorem index_validation_error_naming_witness :
    selectTablesExec ["t1", "t2"] (some [0, 5, -1]) =
      .failed (tableErrMsg ["t1", "t2"] [5, -1]) ∧
    colNamesFor [{ column_name := "c", data_type := "integer" }] "t" [2, 3] =
      .error (colErrMsg "t" [{ column_name := "c", data_type := "integer" }] 2) := by
  obtain ⟨_, h2, h3, _⟩ := index_validation_error_naming ["t1", "t2"] [0, 5, -1]
    "t" [{ column_name := "c", data_type := "integer" }] [2, 3] (by decide)
  have hfil : [0, 5, -1].filter (tableIdxInvalid ["t1", "t2"]) = [5, -1] := by decide
  refine ⟨?_, h3 2 (by decide)⟩
  have := (h2 (by decide)).1
  rwa [hfil] at this

/-- Claim C1 counterexample: with one available column and selected
column indexes [3, 4] both out of range, the column-selection step
fails with a message naming only index 3; index 4 is invalid as well
but its digit never occurs in the message, so the error does not name
every invalid index. -/
theorem column_error_names_subset_cex :
    selectColumnsAndDetailsExec
        [("t", [{ column_name := "c", data_type := "integer" }])] ["t"]
        (some { selectedColumnsByTable := [("t", [3, 4])],
                kpiName := "k", kpiDescription := "d",
                useAIGeneration := false, sqlIntent := none,
                manualSQL := some "SELECT 1" }) =
      .failed "Invalid column index 3 for table \x27t\x27. Must be between 0 and 0" ∧
    colIdxInvalid [{ column_name := "c", data_type := "integer" }] 4 = true ∧
    ('4' ∈ ("Invalid column index 3 for table \x27t\x27. Must be between 0 and 0").data) = False := by
  refine ⟨by decide, by decide, by decide⟩

/-! ## Claim C2: suspend / resume behaviour of every suspendable step -/

theorem isEmpty_eq_true_of_eq (s : String) (h : s = "") : s.isEmpty = true :=
  (String.isEmpty_iff s).mpr h

theorem isEmpty_eq_false_of_ne (s : String) (h : s ≠ "") : s.isEmpty = false := by
  cases he : s.isEmpty
  · rfl
  · exact absurd ((String.isEmpty_iff s).mp he) h

/-- Claim C2 amended: every suspendable step pauses with exactly its
declared suspend payload when resume data is absent, and pauses AGAIN
with the same payload when the schema-valid resume data has a falsy
gating value (confirmed = false, an empty index list, an empty string);
it advances past the pause exactly when the gating values are truthy. -/
theorem steps_pause_on_falsy_resume
    (tables : List String) (idxs : List Int)
    (cols : List (String × List ColInfo)) (selTabs : List String) (r2 : SelColResume)
    (ci : ConfirmInput) (r3 : ConfirmResume) (db : List KPIRow) (now : Nat)
    (ts : List String) (r4 : SelectTableResume)
    (tn : String) (cls : List ColInfo) (r5 : DefineKPIResume) (g : GenSqlFn)
    (si : SaveKPIInput) (r6 : ConfirmResume)
    (kpis : List KPIEntry) (r7 : SelectKPIResume)
    (ii : InsightConfirmInput) (r8 : InsightConfirmResume) (idb : List InsightRow) :
    (selectTablesExec tables none = .suspended (selectTablesSuspendPayload tables)) ∧
    (selectTablesExec tables (some []) = .suspended (selectTablesSuspendPayload tables)) ∧
    (idxs ≠ [] → (selectTablesExec tables (some idxs)).isSuspend = false) ∧
    (selectColumnsAndDetailsExec cols selTabs none =
      .suspended (selColSuspendPayload cols selTabs)) ∧
    (r2.kpiName = "" → selectColumnsAndDetailsExec cols selTabs (some r2) =
      .suspended (selColSuspendPayload cols selTabs)) ∧
    (r2.kpiName ≠ "" →
      (selectColumnsAndDetailsExec cols selTabs (some r2)).isSuspend = false) ∧
    (confirmAndSaveExec ci none db now = .suspended (confirmSuspendPayload ci)) ∧
    (r3.confirmed = false → confirmAndSaveExec ci (some r3) db now =
      .suspended (confirmSuspendPayload ci)) ∧
    (r3.confirmed = true →
      (confirmAndSaveExec ci (some r3) db now).isSuspend = false) ∧
    (selectTableExec ts none = .suspended (selectTableSuspendPayload ts)) ∧
    (r4.tableName = "" → selectTableExec ts (some r4) =
      .suspended (selectTableSuspendPayload ts)) ∧
    (r4.tableName ≠ "" → selectTableExec ts (some r4) = .done r4.tableName) ∧
    (defineKPIExec tn cls none g = .suspended (defineKPISuspendPayload tn cls)) ∧
    (r5.kpiName = "" → defineKPIExec tn cls (some r5) g =
      .suspended (defineKPISuspendPayload tn cls)) ∧
    (r5.kpiName ≠ "" → (defineKPIExec tn cls (some r5) g).isSuspend = false) ∧
    (saveKPIExec si none db now = .suspended (saveKPISuspendPayload si)) ∧
    (r6.confirmed = false → saveKPIExec si (some r6) db now =
      .suspended (saveKPISuspendPayload si)) ∧
    (r6.confirmed = true → (saveKPIExec si (some r6) db now).isSuspend = false) ∧
    (selectKPIExec kpis none = .suspended (selectKPISuspendPayload kpis)) ∧
    (r7.kpiName = "" ∨ r7.insightName = "" → selectKPIExec kpis (some r7) =
      .suspended (selectKPISuspendPayload kpis)) ∧
    (r7.kpiName ≠ "" → r7.insightName ≠ "" →
      (selectKPIExec kpis (some r7)).isSuspend = false) ∧
    (confirmAndSaveInsightExec ii none idb =
      .suspended (insightConfirmSuspendPayload ii)) ∧
    (r8.confirmed = false → confirmAndSaveInsightExec ii (some r8) idb =
      .suspended (insightConfirmSuspendPayload ii)) ∧
    (r8.confirmed = true →
      (confirmAndSaveInsightExec ii (some r8) idb).isSuspend = false) := by
  refine ⟨rfl, rfl, ?_, rfl, ?_, ?_, rfl, ?_, ?_, rfl, ?_, ?_, rfl, ?_, ?_,
    rfl, ?_, ?_, rfl, ?_, ?_, rfl, ?_, ?_⟩
  · intro h
    have hemp : idxs.isEmpty = false := List.isEmpty_eq_false.mpr h
    by_cases hf : (idxs.filter (tableIdxInvalid tables)).isEmpty = true <;>
      simp [selectTablesExec, hemp, hf, StepOutcome.isSuspend]
  · intro h
    simp [selectColumnsAndDetailsExec, isEmpty_eq_true_of_eq _ h]
  · intro h
    cases hcc : collectColumns cols r2.selectedColumnsByTable <;>
      simp [selectColumnsAndDetailsExec, isEmpty_eq_false_of_ne _ h, hcc,
        StepOutcome.isSuspend]
  · intro h
    simp [confirmAndSaveExec, h]
  · intro h
    simp [confirmAndSaveExec, h, StepOutcome.isSuspend]
  · intro h
    simp [selectTableExec, isEmpty_eq_true_of_eq _ h]
  · intro h
    simp [selectTableExec, isEmpty_eq_false_of_ne _ h]
  · intro h
    simp [defineKPIExec, isEmpty_eq_true_of_eq _ h]
  · intro h
    cases h1 : (r5.useAI && truthyStr r5.sqlIntent) <;>
      cases h2 : (!r5.useAI && truthyStr r5.manualSQL) <;>
        simp [defineKPIExec, isEmpty_eq_false_of_ne _ h, h1, h2,
          StepOutcome.isSuspend]
  · intro h
    simp [saveKPIExec, h]
  · intro h
    simp [saveKPIExec, h, StepOutcome.isSuspend]
  · intro h
    rcases h with h | h <;> simp [selectKPIExec, isEmpty_eq_true_of_eq _ h]
  · intro h1 h2
    cases hf : kpis.find? (fun k => decide (k.name = r7.kpiName)) <;>
      simp [selectKPIExec, isEmpty_eq_false_of_ne _ h1,
        isEmpty_eq_false_of_ne _ h2, hf, StepOutcome.isSuspend]
  · intro h
    simp [confirmAndSaveInsightExec, h]
  · intro h
    simp [confirmAndSaveInsightExec, h, StepOutcome.isSuspend]

/-- The constant SQL generator used to instantiate step bodies in
closed statements. -/
def constGen : GenSqlFn := fun _ _ _ _ => ""

/-- A concrete confirm-save input used in closed statements. -/
def exConfirmInput : ConfirmInput :=
  { sqlQuery := "SELECT 1", kpiName := "k", kpiDescription := "d",
    previewResults := [], selectedColumns := [], selectedTables := ["t"] }

/-- A concrete save-kpi input used in closed statements. -/
def exSaveKPIInput : SaveKPIInput :=
  { kpiName := "k", kpiDescription := "d", sqlQuery := "SELECT 1", preview := [] }

/-- A concrete define-kpi resume record: manual SQL supplied together
with useAI = true and no intent. -/
def exManualWithAIResume : DefineKPIResume :=
  { kpiName := "k", kpiDescription := "d", useAI := true,
    sqlIntent := none, manualSQL := some "SELECT 1" }

/-- A concrete define-kpi resume record on the manual branch. -/
def exManualResume : DefineKPIResume :=
  { kpiName := "k", kpiDescription := "d", useAI := false,
    sqlIntent := none, manualSQL := some "SELECT 1" }

theorem steps_pause_on_falsy_resume_witness :
    (selectTablesExec ["a"] (some [0])).isSuspend = false ∧
    (confirmAndSaveExec { sqlQuery := "S", kpiName := "k", kpiDescription := "d",
                          previewResults := [], selectedColumns := [],
                          selectedTables := ["a"] }
      (some { confirmed := true, editedSQL := none }) [] 0).isSuspend = false ∧
    (selectKPIExec [{ name := "k", formula := "f" }]
      (some { kpiName := "k", insightName := "i", insightDescription := "d" })).isSuspend = false ∧
    (defineKPIExec "a" [] (some { kpiName := "k", kpiDescription := "d",
                                  useAI := false, sqlIntent := none,
                                  manualSQL := some "S" })
      constGen).isSuspend = false := by
  obtain ⟨_, _, h3, _, _, _, _, _, h9, _, _, _, _, _, h15, _, _, _, _, _, h21, _, _, _⟩ :=
    steps_pause_on_falsy_resume ["a"] [0] [("a", [])] ["a"]
      { selectedColumnsByTable := [], kpiName := "k", kpiDescription := "d",
        useAIGeneration := false, sqlIntent := none, manualSQL := some "S" }
      { sqlQuery := "S", kpiName := "k", kpiDescription := "d",
        previewResults := [], selectedColumns := [], selectedTables := ["a"] }
      { confirmed := true, editedSQL := none } [] 0
      ["a"] { tableName := "a" } "a" []
      { kpiName := "k", kpiDescription := "d", useAI := false,
        sqlIntent := none, manualSQL := some "S" } constGen
      { kpiName := "k", kpiDescription := "d", sqlQuery := "S", preview := [] }
      { confirmed := true, editedSQL := none }
      [{ name := "k", formula := "f" }]
      { kpiName := "k", insightName := "i", insightDescription := "d" }
      { kpiName := "k", insightText := "t", insightName := "i" }
      { confirmed := true, editedInsight := none } []
  exact ⟨h3 (by decide), h9 rfl, h21 (by decide) (by decide),
    h15 (by decide)⟩

/-- Claim C2 counterexample: schema-valid resume data with falsy gating
values makes the steps pause again instead of computing their outputs:
the confirm-and-save steps given confirmed = false, and the
table-selection step given the empty index list, each return their
suspend payload. -/
theorem valid_resume_pauses_again_cex :
    confirmAndSaveExec exConfirmInput
      (some { confirmed := false, editedSQL := none }) [] 0 =
      .suspended (confirmSuspendPayload exConfirmInput) ∧
    selectTablesExec ["t"] (some []) = .suspended (selectTablesSuspendPayload ["t"]) ∧
    saveKPIExec exSaveKPIInput
      (some { confirmed := false, editedSQL := none }) [] 0 =
      .suspended (saveKPISuspendPayload exSaveKPIInput) :=
  ⟨rfl, rfl, rfl⟩

/-! ## Claim C6: when the SQL-resolution steps raise a hard error -/

/-- Whether an Except-valued tool body threw. -/
def isErr : Except String α → Bool
  | .error _ => true
  | .ok _ => false

/-- Claim C6 amended: the index workflow's generate-sql step errors
exactly when neither (useAIGeneration with a truthy intent) nor a
truthy manualSQL is supplied; the simple workflow's define-kpi step
errors exactly when neither (useAI = true with a truthy intent) nor
(useAI = false with a truthy manualSQL) is supplied — so supplying
manualSQL together with useAI = true and no intent is an error there. -/
theorem sql_resolution_error_conditions
    (useAI : Bool) (intent manual : Option String)
    (selCols selTabs : List String) (n d : String) (g : GenSqlFn)
    (tn : String) (cls : List ColInfo) (r : DefineKPIResume)
    (hr : r.kpiName ≠ "") :
    isErr (generateSQLExec useAI intent manual selCols selTabs n d g) =
      (!(useAI && truthyStr intent) && !truthyStr manual) ∧
    (defineKPIExec tn cls (some r) g).isFail =
      (!(r.useAI && truthyStr r.sqlIntent) && !(!r.useAI && truthyStr r.manualSQL)) := by
  constructor
  · cases h1 : (useAI && truthyStr intent) <;> cases h2 : truthyStr manual <;>
      simp [generateSQLExec, isErr, h1, h2]
  · cases h1 : (r.useAI && truthyStr r.sqlIntent) <;>
      cases h2 : (!r.useAI && truthyStr r.manualSQL) <;>
        simp [defineKPIExec, isEmpty_eq_false_of_ne _ hr, h1, h2,
          StepOutcome.isFail]

theorem sql_resolution_error_conditions_witness :
    isErr (generateSQLExec false none none [] [] "k" "d" constGen) = true ∧
    (defineKPIExec "t" [] (some exManualResume) constGen).isFail = false := by
  obtain ⟨h1, h2⟩ := sql_resolution_error_conditions false none none [] [] "k" "d"
    constGen "t" [] exManualResume (by decide)
  exact ⟨h1, h2.trans (by decide)⟩

/-- Claim C6 counterexample: in the simple workflow's define-kpi step a
literal manual SQL string IS supplied, yet because useAI is true and no
intent is given the step raises the hard error — contradicting the
claim that an error occurs exactly when neither alternative is
supplied. -/
theorem manual_sql_with_useAI_cex :
    defineKPIExec "t" [] (some exManualWithAIResume) constGen =
      .failed "Provide either sqlIntent (with useAI=true) or manualSQL (with useAI=false)" ∧
    truthyStr (some "SELECT 1") = true :=
  ⟨by decide, by decide⟩

/-! ## Claim C7: unknown KPI name in the insight workflow -/

/-- Claim C7 amended: provided kpiName and insightName are both
non-empty, the select-kpi step fails with an error naming the KPI when
kpiName matches no fetched KPI, and returns that KPI's formula together
with the supplied insight name and description when it matches; with an
empty kpiName or insightName the step pauses again instead. -/
theorem select_kpi_unknown_name (kpis : List KPIEntry) (r : SelectKPIResume)
    (hk : r.kpiName ≠ "") (hi : r.insightName ≠ "") :
    ((∀ k ∈ kpis, k.name ≠ r.kpiName) →
      selectKPIExec kpis (some r) =
        .failed ("KPI \x27" ++ r.kpiName ++ "\x27 not found")) ∧
    (∀ k, kpis.find? (fun k => decide (k.name = r.kpiName)) = some k →
      k ∈ kpis ∧ k.name = r.kpiName ∧
      selectKPIExec kpis (some r) =
        .done { kpiName := r.kpiName, kpiFormula := k.formula,
                insightName := r.insightName,
                insightDescription := r.insightDescription }) := by
  constructor
  · intro hall
    have hf : kpis.find? (fun k => decide (k.name = r.kpiName)) = none := by
      rw [List.find?_eq_none]
      intro k hkmem
      simpa using hall k hkmem
    simp [selectKPIExec, isEmpty_eq_false_of_ne _ hk,
      isEmpty_eq_false_of_ne _ hi, hf]
  · intro k hfind
    refine ⟨List.mem_of_find?_eq_some hfind,
      by simpa using List.find?_some hfind, ?_⟩
    simp [selectKPIExec, isEmpty_eq_false_of_ne _ hk,
      isEmpty_eq_false_of_ne _ hi, hfind]

theorem select_kpi_unknown_name_witness :
    selectKPIExec [{ name := "k", formula := "f" }]
      (some { kpiName := "z", insightName := "i", insightDescription := "d" }) =
      .failed "KPI \x27z\x27 not found" ∧
    selectKPIExec [{ name := "k", formula := "f" }]
      (some { kpiName := "k", insightName := "i", insightDescription := "d" }) =
      .done { kpiName := "k", kpiFormula := "f", insightName := "i",
              insightDescription := "d" } := by
  obtain ⟨h1, _⟩ := select_kpi_unknown_name [{ name := "k", formula := "f" }]
    { kpiName := "z", insightName := "i", insightDescription := "d" }
    (by decide) (by decide)
  obtain ⟨_, h2⟩ := select_kpi_unknown_name [{ name := "k", formula := "f" }]
    { kpiName := "k", insightName := "i", insightDescription := "d" }
    (by decide) (by decide)
  have h3 := h2 { name := "k", formula := "f" } (by decide)
  exact ⟨(h1 (by decide)).trans (by decide), h3.2.2⟩

/-- Claim C7 counterexample: with resume data whose kpiName is the
empty string — which equals the name of no fetched KPI — the step does
not raise an error at all: it pauses again with its suspend payload. -/
theorem empty_kpi_name_suspends_cex :
    selectKPIExec [{ name := "k", formula := "f" }]
      (some { kpiName := "", insightName := "i", insightDescription := "d" }) =
      .suspended (selectKPISuspendPayload [{ name := "k", formula := "f" }]) ∧
    (∃ k ∈ ([{ name := "k", formula := "f" }] : List KPIEntry), k.name = "") = False :=
  ⟨rfl, by simp⟩

end KpiBot
